import Mathlib

/-!
Shallow embedding of the Snapline backend (src/app/app.py): the upload
endpoint, the feed endpoint and the delete endpoint, together with the
post store they act on.  Machine-level ids (UUIDs) and timestamps are
modelled as naturals; the database table of posts is a list of rows.
Effects of the external collaborators (the temp-file system calls, the
imagekit media-store call, the database commit/refresh) are modelled by
an environment value that records whether each call raises and what the
media store answers, so that every control path of the handler body is a
case of the embedding.
-/

namespace Snapline

/-- A persisted Post row.  Field names follow the Post model used by
app/app.py (user_id, caption, url, file_type, file_name, created_at),
with the generated UUID `id` and the server timestamp `created_at`
modelled as naturals. -/
structure Post where
  id : Nat
  user_id : Nat
  caption : String
  url : String
  file_type : String
  file_name : String
  created_at : Nat
deriving DecidableEq, Repr

/-- A User identity row as consumed by app/app.py: only `id` and `email`
are read. -/
structure Usr where
  id : Nat
  email : String
deriving DecidableEq, Repr

/-- The imagekit upload response as read by app/app.py:
`response_metadata.http_status_code`, `url` and `name`. -/
structure UploadResponse where
  http_status_code : Nat
  url : String
  name : String
deriving DecidableEq, Repr

/-- Outcome of the staging step of upload_file.  `failCreate`: the
NamedTemporaryFile call itself raises, so no temp file exists and
temp_file_path is still None.  `failCopy`: the temp file was created and
temp_file_path assigned, then copyfileobj raises (the with-block closes
the handle; the file, created with delete = False, stays on disk until
the finally clause).  `ok`: staging completes. -/
inductive StagingOutcome where
  | failCreate (msg : String)
  | failCopy (msg : String)
  | ok
deriving DecidableEq, Repr

/-- Outcome of the imagekit.upload_file call: it either raises or
returns a response object. -/
inductive MediaOutcome where
  | raises (msg : String)
  | returns (resp : UploadResponse)
deriving DecidableEq, Repr

/-- Environment of one upload_file request: what each external call
does.  `commitErr` / `refreshErr`: `some msg` means session.commit /
session.refresh raises with that message. -/
structure UploadEnv where
  staging : StagingOutcome
  media : MediaOutcome
  commitErr : Option String
  refreshErr : Option String
deriving DecidableEq, Repr

/-- What the upload endpoint hands back to the HTTP layer: the created
post, an empty (None) body, or a raised HTTPException. -/
inductive UploadResult where
  | post (p : Post)
  | noBody
  | httpError (status : Nat) (detail : String)
deriving DecidableEq, Repr

/-- State at the end of the try body of upload_file, before the except
and finally clauses run: the pending result (`Except.error` is a raised
exception, `Except.ok none` is falling off the end of the try body,
`Except.ok (some p)` is `return post`), the posts table, the
temp_file_path variable and whether the temp file is on disk. -/
structure UploadState where
  res : Except String (Option Post)
  posts : List Post
  temp_file_path : Option String
  tempOnDisk : Bool

/-- Final observable outcome of one upload_file request. -/
structure UploadOutcome where
  result : UploadResult
  posts : List Post
  tempExists : Bool
deriving DecidableEq, Repr

/-- The Post constructed on the success branch of upload_file:
`Post(user_id = user.id, caption = caption, url = upload_result.url,
file_type = "video" if file.content_type.startswith("video/") else
"image", file_name = upload_result.name)`, with the generated id and
created_at passed in. -/
def mkPost (uid : Nat) (caption content_type : String)
    (resp : UploadResponse) (newId now : Nat) : Post :=
  { id := newId
    user_id := uid
    caption := caption
    url := resp.url
    file_type := if content_type.startsWith "video/" then "video" else "image"
    file_name := resp.name
    created_at := now }

/-- The try body of upload_file (lines 80-108 of app/app.py): stage the
stream to a temp file, call the media store, and when the response
status equals 200 build the Post, add it, commit, refresh and return
it.  When the status differs from 200 the body falls through and the
function returns None.  `tmp` is the name NamedTemporaryFile picks. -/
def upload_try (env : UploadEnv) (store : List Post) (uid : Nat)
    (caption content_type tmp : String) (newId now : Nat) : UploadState :=
  match env.staging with
  | .failCreate msg => { res := .error msg, posts := store, temp_file_path := none, tempOnDisk := false }
  | .failCopy msg => { res := .error msg, posts := store, temp_file_path := some tmp, tempOnDisk := true }
  | .ok =>
    match env.media with
    | .raises msg => { res := .error msg, posts := store, temp_file_path := some tmp, tempOnDisk := true }
    | .returns resp =>
      if resp.http_status_code = 200 then
        let p := mkPost uid caption content_type resp newId now
        match env.commitErr with
        | some msg => { res := .error msg, posts := store, temp_file_path := some tmp, tempOnDisk := true }
        | none =>
          match env.refreshErr with
          | some msg => { res := .error msg, posts := store ++ [p], temp_file_path := some tmp, tempOnDisk := true }
          | none => { res := .ok (some p), posts := store ++ [p], temp_file_path := some tmp, tempOnDisk := true }
      else
        { res := .ok none, posts := store, temp_file_path := some tmp, tempOnDisk := true }

/-- The finally clause of upload_file: `if temp_file_path and
os.path.exists(temp_file_path): os.unlink(temp_file_path)`. -/
def runFinally (s : UploadState) : UploadState :=
  if s.temp_file_path.isSome && s.tempOnDisk then { s with tempOnDisk := false } else s

/-- The whole upload_file handler: run the try body, run the finally
clause, and translate the pending result the way the except clause does
(`except Exception as e: raise HTTPException(status_code = 500,
detail = str(e))`). -/
def upload_file (env : UploadEnv) (store : List Post) (uid : Nat)
    (caption content_type tmp : String) (newId now : Nat) : UploadOutcome :=
  let s := runFinally (upload_try env store uid caption content_type tmp newId now)
  { result :=
      match s.res with
      | .error msg => .httpError 500 msg
      | .ok none => .noBody
      | .ok (some p) => .post p
    posts := s.posts
    tempExists := s.tempOnDisk }

/-- A JSON scalar, used for the acknowledgment dict the delete endpoint
returns, so that its keys are first-class data. -/
inductive JVal where
  | b (x : Bool)
  | s (x : String)
deriving DecidableEq, Repr

/-- What the delete endpoint hands back to the HTTP layer: the returned
dict (a list of key/value pairs in insertion order) or a raised
HTTPException. -/
inductive DeleteResult where
  | ack (fields : List (String × JVal))
  | httpError (status : Nat) (detail : String)
deriving DecidableEq, Repr

/-- `str(e)` for a starlette/fastapi HTTPException: its `__str__` method
renders the status code, a colon and the detail. -/
def strOfHTTPException (status : Nat) (detail : String) : String :=
  toString status ++ ": " ++ detail

/-- Outcome of `uuid.UUID(post_id)`: a ValueError for a malformed
identifier, or the parsed id. -/
inductive ParseOutcome where
  | valueError (msg : String)
  | uuid (n : Nat)
deriving DecidableEq, Repr

/-- The delete_post handler (lines 152-169 of app/app.py).  Its whole
body is a try block whose except clause catches every Exception e,
HTTPException included, and re-raises HTTPException(500, str(e)); so the
404 and 403 raised inside the body reach the caller as 500 with the
stringified inner exception as detail.  `commitErr` models
session.delete/commit raising.  Returns the HTTP-layer result and the
posts table afterwards. -/
def delete_post (parse : ParseOutcome) (commitErr : Option String)
    (store : List Post) (user_id : Nat) : DeleteResult × List Post :=
  match parse with
  | .valueError msg => (.httpError 500 msg, store)
  | .uuid post_uuid =>
    match store.find? (fun p => p.id == post_uuid) with
    | none => (.httpError 500 (strOfHTTPException 404 "Post not found"), store)
    | some post =>
      if post.user_id != user_id then
        (.httpError 500 (strOfHTTPException 403 "You dont have permission to delete this post"), store)
      else
        match commitErr with
        | some msg => (.httpError 500 msg, store)
        | none =>
          (.ack [("success", .b true), ("messsage", .s "Post deleted successfully")],
           store.eraseP (fun p => p.id == post_uuid))

/-- The ORDER BY relation of the feed query: descending created_at. -/
def createdDesc (a b : Post) : Prop := b.created_at ≤ a.created_at

instance : DecidableRel createdDesc := fun a b => Nat.decLe b.created_at a.created_at

instance : IsTotal Post createdDesc := ⟨fun a b => Nat.le_total b.created_at a.created_at⟩

instance : IsTrans Post createdDesc :=
  ⟨fun _ _ _ hab hbc => Nat.le_trans hbc hab⟩

/-- The feed query `select(Post).order_by(Post.created_at.desc())`: the
stored rows sorted by created_at descending. -/
def feedQuery (store : List Post) : List Post :=
  List.insertionSort createdDesc store

/-- `user_dict.get(post.user_id, "Unknown")` where `user_dict` is the
python dict built by `u.id : u.email for u in users` (a later entry for
the same id overwrites an earlier one, hence the last match wins). -/
def dictGet (users : List Usr) (uid : Nat) : String :=
  match (users.filter (fun u => u.id == uid)).getLast? with
  | some u => u.email
  | none => "Unknown"

/-- One element of the feed response, mirroring the dict built per post
by get_feed.  `id` and `user_id` are the str() renderings; `created_at`
keeps the timestamp (its isoformat rendering is order-isomorphic and
carries no further information for the claims). -/
structure FeedEntry where
  id : String
  user_id : String
  caption : String
  url : String
  file_type : String
  file_name : String
  created_at : Nat
  is_owner : Bool
  email : String
deriving DecidableEq, Repr

/-- The loop body of get_feed: the view dict built for one post. -/
def enrich (caller_id : Nat) (users : List Usr) (post : Post) : FeedEntry :=
  { id := toString post.id
    user_id := toString post.user_id
    caption := post.caption
    url := post.url
    file_type := post.file_type
    file_name := post.file_name
    created_at := post.created_at
    is_owner := post.user_id == caller_id
    email := dictGet users post.user_id }

/-- The get_feed handler (lines 118-148 of app/app.py): fetch all posts
ordered by created_at descending, fetch all users, and build the list
of enriched view dicts. -/
def get_feed (store : List Post) (users : List Usr) (caller_id : Nat) : List FeedEntry :=
  (feedQuery store).map (enrich caller_id users)

/-! Concrete rows and environments used by the witness theorems. -/

/-- A stored post owned by identity 7. -/
def postA : Post :=
  { id := 1, user_id := 7, caption := "hi", url := "http://u/a",
    file_type := "image", file_name := "a.png", created_at := 5 }

/-- A stored post owned by identity 8, newer than postA. -/
def postB : Post :=
  { id := 2, user_id := 8, caption := "yo", url := "http://u/b",
    file_type := "video", file_name := "b.mp4", created_at := 9 }

/-- The identity that owns postA. -/
def usrA : Usr := { id := 7, email := "a@x.io" }

/-- A media-store response with status 200. -/
def respOk : UploadResponse :=
  { http_status_code := 200, url := "http://cdn/x", name := "x_1.png" }

/-- A media-store response with status 400 and no exception raised. -/
def respFail : UploadResponse := { http_status_code := 400, url := "", name := "" }

/-- An upload request on which every external call succeeds and the
media store answers 200. -/
def envOk : UploadEnv :=
  { staging := .ok, media := .returns respOk, commitErr := none, refreshErr := none }

/-- An upload request on which the media store returns status 400
without raising and everything else succeeds. -/
def envNon200 : UploadEnv :=
  { staging := .ok, media := .returns respFail, commitErr := none, refreshErr := none }

end Snapline

namespace Snapline

/-- Claim C4: on every exit path of upload_file (success, remote-store
failure, or any raised exception in staging, media call, commit or
refresh), the staging temporary file no longer exists when the handler
completes: the finally clause unlinks it whenever it was created. -/
theorem upload_temp_file_always_removed (env : UploadEnv) (store : List Post)
    (uid : Nat) (caption content_type tmp : String) (newId now : Nat) :
    (upload_file env store uid caption content_type tmp newId now).tempExists = false := by
  rcases env with ⟨stg, med, ce, re⟩
  cases stg <;> cases med <;> cases ce <;> cases re <;>
    simp [upload_file, upload_try, runFinally] <;>
    split <;> simp [runFinally]

/-- Claim C5: when staging succeeds, the media store answers 200 and
commit and refresh do not raise, upload_file appends exactly one Post
to the store and returns it, with user_id the caller identity, caption
as given, and url and file_name taken from the media-store response. -/
theorem upload_success_creates_exactly_one_post
    (env : UploadEnv) (store : List Post) (uid : Nat)
    (caption content_type tmp : String) (newId now : Nat) (resp : UploadResponse)
    (hstag : env.staging = .ok)
    (hmedia : env.media = .returns resp)
    (h200 : resp.http_status_code = 200)
    (hcommit : env.commitErr = none)
    (hrefresh : env.refreshErr = none) :
    ∃ p : Post,
      (upload_file env store uid caption content_type tmp newId now).result = .post p ∧
      (upload_file env store uid caption content_type tmp newId now).posts = store ++ [p] ∧
      p.user_id = uid ∧ p.caption = caption ∧ p.url = resp.url ∧ p.file_name = resp.name := by
  refine ⟨mkPost uid caption content_type resp newId now, ?_, ?_, rfl, rfl, rfl, rfl⟩ <;>
    simp [upload_file, upload_try, runFinally, hstag, hmedia, h200, hcommit, hrefresh]

/-- Witness for C5 at a concrete input. -/
theorem upload_success_creates_exactly_one_post_witness :
    ∃ p : Post,
      (upload_file envOk [] 7 "hi" "image/png" "/tmp/stage" 1 5).result = .post p ∧
      (upload_file envOk [] 7 "hi" "image/png" "/tmp/stage" 1 5).posts = [] ++ [p] ∧
      p.user_id = 7 ∧ p.caption = "hi" ∧ p.url = respOk.url ∧ p.file_name = respOk.name :=
  upload_success_creates_exactly_one_post envOk [] 7 "hi" "image/png" "/tmp/stage" 1 5
    respOk rfl rfl rfl rfl rfl

/-- Claim C6: whenever upload_file returns a created Post, its
file_type is "video" exactly when the inbound content type starts with
"video/", and "image" otherwise. -/
theorem upload_file_type_video_iff
    (env : UploadEnv) (store : List Post) (uid : Nat)
    (caption content_type tmp : String) (newId now : Nat) (p : Post)
    (h : (upload_file env store uid caption content_type tmp newId now).result = .post p) :
    (p.file_type = "video" ↔ (content_type.startsWith "video/") = true) ∧
    (p.file_type = "image" ↔ (content_type.startsWith "video/") = false) := by
  rcases env with ⟨stg, med, ce, re⟩
  cases stg with
  | failCreate msg => simp [upload_file, upload_try, runFinally] at h
  | failCopy msg => simp [upload_file, upload_try, runFinally] at h
  | ok =>
    cases med with
    | raises msg => simp [upload_file, upload_try, runFinally] at h
    | returns resp =>
      by_cases h200 : resp.http_status_code = 200
      · cases ce with
        | some msg => simp [upload_file, upload_try, runFinally, h200] at h
        | none =>
          cases re with
          | some msg => simp [upload_file, upload_try, runFinally, h200] at h
          | none =>
            simp [upload_file, upload_try, runFinally, h200] at h
            subst h
            cases hsw : content_type.startsWith "video/" <;>
              simp [mkPost, hsw]
      · simp [upload_file, upload_try, runFinally, h200] at h

/-- Witness for C6 at a concrete input with a video content type. -/
theorem upload_file_type_video_iff_witness :
    ((mkPost 7 "hi" "video/mp4" respOk 1 5).file_type = "video" ↔
      (("video/mp4").startsWith "video/") = true) ∧
    ((mkPost 7 "hi" "video/mp4" respOk 1 5).file_type = "image" ↔
      (("video/mp4").startsWith "video/") = false) :=
  upload_file_type_video_iff envOk [] 7 "hi" "video/mp4" "/tmp/stage" 1 5
    (mkPost 7 "hi" "video/mp4" respOk 1 5) rfl

/-- Claim C10: when staging succeeds and the media store returns any
status other than 200 without raising, upload_file creates no Post,
raises no error, and hands back an empty (None) body, with the temp
file removed. -/
theorem upload_non200_returns_noBody
    (env : UploadEnv) (store : List Post) (uid : Nat)
    (caption content_type tmp : String) (newId now : Nat) (resp : UploadResponse)
    (hstag : env.staging = .ok)
    (hmedia : env.media = .returns resp)
    (hne : resp.http_status_code ≠ 200) :
    (upload_file env store uid caption content_type tmp newId now).result = .noBody ∧
    (upload_file env store uid caption content_type tmp newId now).posts = store ∧
    (upload_file env store uid caption content_type tmp newId now).tempExists = false := by
  simp [upload_file, upload_try, runFinally, hstag, hmedia, hne]

/-- Witness for C10 at a concrete input. -/
theorem upload_non200_returns_noBody_witness :
    (upload_file envNon200 [] 9 "yo" "video/mp4" "/tmp/s2" 2 6).result = .noBody ∧
    (upload_file envNon200 [] 9 "yo" "video/mp4" "/tmp/s2" 2 6).posts = [] ∧
    (upload_file envNon200 [] 9 "yo" "video/mp4" "/tmp/s2" 2 6).tempExists = false :=
  upload_non200_returns_noBody envNon200 [] 9 "yo" "video/mp4" "/tmp/s2" 2 6
    respFail rfl rfl (by decide)

/-- Claim C1 (code behavior at the failing input): when the media store
returns status 400 without raising, upload_file creates no Post and
surfaces no 500 error; it completes with an empty (None) body, contrary
to the claimed upload-failure error. -/
theorem upload_store_failure_yields_empty_body :
    upload_file envNon200 [] 7 "hi" "image/png" "/tmp/stage" 1 5 =
      { result := .noBody, posts := [], tempExists := false } := rfl

/-- Claim C2 (code behavior at the failing input): deleting a post
owned by identity 7 while calling as identity 9 leaves the post in
place, but the 403 HTTPException raised inside the try block is caught
by the blanket except clause and re-raised as a 500 whose detail is the
stringified inner exception: the caller sees 500, not 403. -/
theorem delete_foreign_post_surfaces_500 :
    delete_post (.uuid 1) none [postA] 9 =
      (.httpError 500 "403: You dont have permission to delete this post", [postA]) := rfl

/-- Claim C3 (code behavior at the failing input): deleting a
well-formed identifier that matches no post hits the 404 HTTPException
inside the try block, which the blanket except clause converts into a
500 whose detail is the stringified inner exception: the caller sees
500, not 404. -/
theorem delete_missing_post_surfaces_500 :
    delete_post (.uuid 2) none [postA] 7 =
      (.httpError 500 "404: Post not found", [postA]) := rfl

/-- Claim C9 counterexample: at a concrete successful delete, the
acknowledgment dict does not carry the key "message": the code spells
the key "messsage". -/
theorem delete_ack_key_misspelled :
    ¬ (delete_post (.uuid 1) none [postA] 7).1 =
        DeleteResult.ack [("success", JVal.b true), ("message", JVal.s "Post deleted successfully")] := by
  decide

/-- Claim C9 as amended: every successful deletePost call (the post is
found, owned by the caller, and commit does not raise) returns the
acknowledgment dict with fields success = true and the misspelled key
"messsage" mapped to "Post deleted successfully". -/
theorem delete_own_post_returns_ack
    (pid : Nat) (store : List Post) (uid : Nat) (p : Post)
    (hfind : store.find? (fun q => q.id == pid) = some p)
    (hown : p.user_id = uid) :
    (delete_post (.uuid pid) none store uid).1 =
      .ack [("success", .b true), ("messsage", .s "Post deleted successfully")] := by
  simp [delete_post, hfind, hown]

/-- Witness for the amended C9 at a concrete input. -/
theorem delete_own_post_returns_ack_witness :
    (delete_post (.uuid 1) none [postA] 7).1 =
      .ack [("success", .b true), ("messsage", .s "Post deleted successfully")] :=
  delete_own_post_returns_ack 1 [postA] 7 postA rfl rfl

/-- Claim C7: for any stored posts with pairwise-distinct created_at,
the feed response is sorted in strictly descending created_at order. -/
theorem feed_sorted_descending (store : List Post) (users : List Usr) (cid : Nat)
    (hd : store.Pairwise fun a b => a.created_at ≠ b.created_at) :
    (get_feed store users cid).Pairwise fun a b => b.created_at < a.created_at := by
  have hsor : List.Sorted createdDesc (feedQuery store) :=
    List.sorted_insertionSort createdDesc store
  have hperm : List.Perm (feedQuery store) store := List.perm_insertionSort createdDesc store
  have hd2 : (feedQuery store).Pairwise fun a b => a.created_at ≠ b.created_at := by
    refine (hperm.pairwise_iff ?_).2 hd
    intro x y hxy
    exact fun e => hxy e.symm
  have hstrict : (feedQuery store).Pairwise fun a b => b.created_at < a.created_at := by
    have hand := List.Pairwise.and hsor hd2
    exact hand.imp (fun h => Nat.lt_of_le_of_ne h.1 (Ne.symm h.2))
  exact List.pairwise_map.2 hstrict

/-- Witness for C7 at a concrete two-post store. -/
theorem feed_sorted_descending_witness :
    ([postB, postA].Pairwise fun a b => a.created_at ≠ b.created_at) ∧
    ((get_feed [postB, postA] [usrA] 7).Pairwise fun a b => b.created_at < a.created_at) :=
  ⟨by decide, feed_sorted_descending [postB, postA] [usrA] 7 (by decide)⟩

/-- Claim C8: every entry of every feed response is the enrichment of a
stored post, and its is_owner flag is true exactly when that post is
owned by the calling identity. -/
theorem feed_is_owner_iff_caller (store : List Post) (users : List Usr) (cid : Nat)
    (e : FeedEntry) (he : e ∈ get_feed store users cid) :
    ∃ p : Post, p ∈ store ∧ e = enrich cid users p ∧
      (e.is_owner = true ↔ p.user_id = cid) := by
  unfold get_feed at he
  rcases List.mem_map.1 he with ⟨p, hp, rfl⟩
  refine ⟨p, ?_, rfl, ?_⟩
  · exact (List.perm_insertionSort createdDesc store).subset hp
  · simp [enrich]

/-- Witness for C8 at a concrete input. -/
theorem feed_is_owner_iff_caller_witness :
    ∃ p : Post, p ∈ [postA] ∧ enrich 7 [usrA] postA = enrich 7 [usrA] p ∧
      ((enrich 7 [usrA] postA).is_owner = true ↔ p.user_id = 7) :=
  feed_is_owner_iff_caller [postA] [usrA] 7 (enrich 7 [usrA] postA) (by decide)

end Snapline
